/-
Verification of the Country Metrics Engine of the better-life-dashboard
repository: per-category score computation and normalization
(src/memberCountries.ts `renderCountryGrid`, src/indexWidget.js `drawMap`),
the composite ranking widget (src/indexWidget.js / src/scatter.ts
`updateRanking`), the Pearson correlation of the heatmap
(src/heatmap.ts `computeCorrelation`), and the scatter view's region
classifier (src/scatter.ts `regionOf`).

Conventions of the shallow embedding:
* CSV numbers are embedded as rationals (ℚ); a cell is `Option ℚ` where
  `none` models the JavaScript `null` that `d3.autoType` produces for an
  empty cell.
* A row is an association list from (trimmed) column name to cell; a
  column name absent from the list models a JavaScript `undefined`
  property, which behaves differently from a present `null` cell under
  the `+x` coercion (`+undefined` is `NaN`, `+null` is `0`).
* JavaScript `Array.prototype.sort` is stable (ES2019); it is embedded
  as `List.mergeSort`.
* The result of `computeCorrelation` is embedded as `JsNumber`:
  `finite x` for an ordinary number, `nan` for `NaN`.  The JS function
  produces `NaN` exactly when one column has no valid entry (its
  `d3.mean` is `undefined` and every summand of the `d3.sum` calls is
  `NaN`, which `d3.sum` skips, giving zero sums and a `0/0`), or when a
  zero sum of squared deviations makes the denominator `sdA * sdB`
  zero while the covariance is zero as well; with `n = 1` both sums of
  squares are `0/0`-free but the sums of deviations vanish, which is
  again the zero-variance branch.  Division never yields `Infinity`
  here because a zero denominator forces a zero numerator.
-/
import Mathlib

/-- A CSV cell after `d3.autoType`: a number or `null`. -/
abbrev Cell := Option ℚ

/-- A parsed CSV row with trimmed headers: column name ↦ cell.
A missing column models a JS `undefined` property. -/
abbrev Row := List (String × Cell)

/-- `row[c]` : `none` models `undefined` (column absent). -/
def cellOf (row : Row) (c : String) : Option Cell :=
  row.lookup c

/-- The category → member-column table `GROUPS`, identical in
src/memberCountries.ts, src/indexWidget.js and src/scatter.ts. -/
def GROUPS : List (String × List String) :=
  [("Housing",
     ["Dwellings without basic facilities", "Housing expenditure",
      "Rooms per person"]),
   ("Income",
     ["GDP per capita (USD)", "Household net adjusted disposable income",
      "Household net wealth", "Personal earnings"]),
   ("Jobs",
     ["Labour market insecurity", "Employment rate",
      "Long-term unemployment rate"]),
   ("Community", ["Quality of support network"]),
   ("Education",
     ["Educational attainment", "Student skills", "Years in education"]),
   ("Environment", ["Air pollution", "Water quality"]),
   ("Civic Engagement",
     ["Stakeholder engagement for developing regulations", "Voter turnout"]),
   ("Health", ["Life expectancy", "Self-reported health"]),
   ("Life Satisfaction", ["Life satisfaction"]),
   ("Safety", ["Feeling safe walking alone at night", "Homicide rate"]),
   ("Work-Life Balance",
     ["Employees working very long hours",
      "Time devoted to leisure and personal care"])]

/-- `d3.mean` over an already-filtered list of numbers: arithmetic mean. -/
def d3Mean (l : List ℚ) : ℚ := l.sum / l.length

/-- renderCountryGrid step 3, inner filter:
`cols.map(c => row[c]).filter(v => v != null && !isNaN(v))`.
An absent column gives `undefined` and a `null` cell gives `null`;
both are dropped by the filter. -/
def validVals (row : Row) (cols : List String) : List ℚ :=
  cols.filterMap (fun c => (cellOf row c).bind id)

/-- renderCountryGrid step 3:
`row._groupAvg[cat] = vals.length ? d3.mean(vals) : null`. -/
def groupAvg (row : Row) (cols : List String) : Option ℚ :=
  let vals := validVals row cols
  if vals.length = 0 then none else some (d3Mean vals)

/-- renderCountryGrid step 4, the list the extent is taken over:
`raw.map(d => d._groupAvg[cat]).filter(v => v != null)`. -/
def catValues (rows : List Row) (cols : List String) : List ℚ :=
  rows.filterMap (fun r => groupAvg r cols)

/-- `d3.extent` of a list of numbers (min and max); the empty case is an
arbitrary default, the source never feeds it to a scale it then reads. -/
def d3Extent (l : List ℚ) : ℚ × ℚ :=
  match l with
  | [] => (0, 0)
  | x :: xs => (xs.foldl min x, xs.foldl max x)

/-- `d3.scaleLinear().domain([lo,hi]).range([r0,r1]).clamp(true)` applied
to `x`: the input is clamped to the domain; a degenerate domain makes
d3's `normalize` the constant `0.5`, so the result is the range midpoint. -/
def clampScale (lo hi r0 r1 x : ℚ) : ℚ :=
  if lo = hi then r0 + (1/2) * (r1 - r0)
  else
    let xc := min (max x lo) hi
    r0 + ((xc - lo) / (hi - lo)) * (r1 - r0)

/-- renderCountryGrid step 4: the category's 1–10 clamped scale, built on
the extent of the non-null group averages, applied to a value. -/
def normScore (rows : List Row) (cols : List String) (x : ℚ) : ℚ :=
  let e := d3Extent (catValues rows cols)
  clampScale e.1 e.2 1 10 x

/-- dashboard.ts renderRadarChart / memberCountries.ts radar section:
`(lo === hi) ? d3.scaleLinear([lo-1, hi+1],[0,10]) : d3.scaleLinear([lo, hi],[0,10])`
applied to `v` (no clamping). -/
def radarNormalize (lo hi v : ℚ) : ℚ :=
  if lo = hi then ((v - (lo - 1)) / ((hi + 1) - (lo - 1))) * 10
  else ((v - lo) / (hi - lo)) * 10

/-- indexWidget.js drawMap: member values of one record,
`cols.map(c => rec[c]).filter(v => v != null && !isNaN(v))` where
`rec[c] = +t[c]`: an absent column coerces to `NaN` (dropped), a `null`
cell coerces to `0` (kept as zero). -/
def drawMapVals (row : Row) (cols : List String) : List ℚ :=
  cols.filterMap (fun c =>
    match cellOf row c with
    | none => none
    | some none => some 0
    | some (some q) => some q)

/-- indexWidget.js drawMap:
`rec.groupAvg[groupName] = vals.length ? d3.mean(vals) : 0`. -/
def drawMapGroupAvg (row : Row) (cols : List String) : ℚ :=
  let vals := drawMapVals row cols
  if vals.length = 0 then 0 else d3Mean vals

/-- indexWidget.js drawMap, cross-country average:
`oecdAvg[g] = allVals.length ? d3.mean(allVals) : 0` where
`allVals = data.map(d => d.groupAvg[g]).filter(v => v != null)`;
the group averages are plain numbers, so the filter keeps them all. -/
def drawMapOecdAvg (rows : List Row) (cols : List String) : ℚ :=
  let allVals := rows.map (fun r => drawMapGroupAvg r cols)
  if allVals.length = 0 then 0 else d3Mean allVals

/-- One entry of the ranking widget's precomputed `countries` array
(src/indexWidget.js drawIndexWidget / src/scatter.ts):
`{ Country, scores, composite }`. -/
structure CountryScores where
  country : String
  scores : List (String × ℚ)
  composite : ℚ
deriving DecidableEq, Repr

/-- drawIndexWidget score gathering for one group:
`GROUPS[grp].map(c => +r[c]).filter(v => !isNaN(v))` — an absent column
coerces to `NaN` and is dropped; a present `null` cell coerces to `0`
and is kept. -/
def widgetVals (r : Row) (cols : List String) : List ℚ :=
  cols.filterMap (fun c =>
    match cellOf r c with
    | none => none
    | some none => some 0
    | some (some q) => some q)

/-- drawIndexWidget: `scores[grp] = vals.length ? d3.mean(vals) : 0`. -/
def mkScores (r : Row) : List (String × ℚ) :=
  GROUPS.map (fun p =>
    (p.1, let vals := widgetVals r p.2
          if vals.length = 0 then 0 else d3Mean vals))

/-- drawIndexWidget: one precomputed country entry, `composite: 0`. -/
def mkCountry (name : String) (r : Row) : CountryScores :=
  ⟨name, mkScores r, 0⟩

/-- `c.scores[grp] || 0` of updateRanking. -/
def scoreOf (c : CountryScores) (g : String) : ℚ :=
  (c.scores.lookup g).getD 0

/-- updateRanking: `totalW > 0 ? weight : { "Life Satisfaction": 1 }`. -/
def useWeights (weight : List (String × ℚ)) : List (String × ℚ) :=
  if 0 < (weight.map Prod.snd).sum then weight
  else [("Life Satisfaction", 1)]

/-- updateRanking body for one country:
`s = Σ (c.scores[grp] || 0) * w` over the active weights, then
`c.composite = sumW ? s / sumW : 0`. -/
def rankingComposite (weight : List (String × ℚ)) (c : CountryScores) : ℚ :=
  let uw := useWeights weight
  let sumW := (uw.map Prod.snd).sum
  if sumW = 0 then 0
  else (uw.map (fun p => scoreOf c p.1 * p.2)).sum / sumW

/-- updateRanking: the `countries.forEach` pass that overwrites every
record's `composite` field in place; the post-state of the array before
sorting. -/
def annotate (weight : List (String × ℚ)) (countries : List CountryScores) :
    List CountryScores :=
  countries.map (fun c => { c with composite := rankingComposite weight c })

/-- The sort comparator `(a, b) => b.composite - a.composite` as the
boolean "a may precede b" relation of a stable sort. -/
def rankLE (a b : CountryScores) : Bool := b.composite ≤ a.composite

/-- updateRanking: annotate then `countries.sort(...)`; ES2019
`Array.prototype.sort` is stable, embedded as `List.mergeSort`. -/
def updateRanking (weight : List (String × ℚ))
    (countries : List CountryScores) : List CountryScores :=
  (annotate weight countries).mergeSort rankLE

/-- `d3.mean` over a raw column: `null` cells are ignored; `undefined`
(no valid value at all) is `none`. -/
def dmean (l : List Cell) : Option ℚ :=
  let v := l.filterMap id
  if v.length = 0 then none else some (d3Mean v)

/-- Sum of squared deviations of a raw column from `m`, as computed by
`d3.sum(a.map(v => (v - mean) ** 2))`: a `null` cell coerces to `0`
inside the subtraction. -/
def ssq (l : List Cell) (m : ℚ) : ℚ :=
  (l.map (fun x => (x.getD 0 - m) ^ 2)).sum

/-- Sum of products of deviations,
`d3.sum(a.map((v, i) => (v - meanA) * (b[i] - meanB)))`, with the same
`null → 0` coercion; the two columns have equal length in the heatmap. -/
def sprod (a b : List Cell) (ma mb : ℚ) : ℚ :=
  ((a.zip b).map (fun p => (p.1.getD 0 - ma) * (p.2.getD 0 - mb))).sum

/-- A JavaScript number that is either finite or `NaN`. -/
inductive JsNumber where
  | finite (x : ℝ) : JsNumber
  | nan : JsNumber

/-- src/heatmap.ts `computeCorrelation`.  With both means defined and
both sums of squares nonzero the JS value is
`cov / (sdA * sdB) = Sab / √(Saa · Sbb)`; every other path of the JS
code produces `NaN` (see the header comment). -/
noncomputable def computeCorrelation (a b : List Cell) : JsNumber :=
  match dmean a, dmean b with
  | some ma, some mb =>
      if ssq a ma = 0 ∨ ssq b mb = 0 then JsNumber.nan
      else JsNumber.finite ((sprod a b ma mb : ℝ) /
             Real.sqrt ((ssq a ma : ℝ) * (ssq b mb : ℝ)))
  | _, _ => JsNumber.nan

/-- Modelled from the spec (§4.4), not from the source: the Pearson
coefficient over exactly the pairwise-complete observations, `null` for
fewer than 2 pairs or zero variance.  Used only to compare the source's
`computeCorrelation` against the spec's description. -/
noncomputable def pearsonPairwise (a b : List Cell) : Option ℝ :=
  let pairs := (a.zip b).filterMap (fun p =>
    match p.1, p.2 with
    | some x, some y => some (x, y)
    | _, _ => none)
  if pairs.length < 2 then none
  else
    let ma := d3Mean (pairs.map Prod.fst)
    let mb := d3Mean (pairs.map Prod.snd)
    let saa : ℚ := (pairs.map (fun p => (p.1 - ma) ^ 2)).sum
    let sbb : ℚ := (pairs.map (fun p => (p.2 - mb) ^ 2)).sum
    let sab : ℚ := (pairs.map (fun p => (p.1 - ma) * (p.2 - mb))).sum
    if saa = 0 ∨ sbb = 0 then none
    else some ((sab : ℝ) / Real.sqrt ((saa : ℝ) * (sbb : ℝ)))

/-- Modelled from the spec (§4.2/§4.3), not from the source: a country's
normalized per-category score, `none` when the rawMean is `null`. -/
def specNormScore (rows : List Row) (cols : List String) (r : Row) :
    Option ℚ :=
  (groupAvg r cols).map (fun v => normScore rows cols v)

/-- Modelled from the spec (§4.3), not from the source: the composite
score `Σ(weight[c] * normalizedScore[country][c]) / Σ(weight[c])` over
exactly the categories where the country has a defined normalized
score; `none` when those weights sum to zero. -/
def specCompositeScore (rows : List Row) (weight : List (String × ℚ))
    (r : Row) : Option ℚ :=
  let terms := GROUPS.filterMap (fun p =>
    (specNormScore rows p.2 r).map (fun s => ((weight.lookup p.1).getD 0, s)))
  let den := (terms.map Prod.fst).sum
  if den = 0 then none
  else some ((terms.map (fun t => t.1 * t.2)).sum / den)

/-- src/scatter.ts regionOf: the hard-coded Europe list. -/
def euCountries : List String :=
  ["Austria", "Belgium", "Czechia", "Denmark", "Estonia", "Finland",
   "France", "Germany", "Greece", "Hungary", "Iceland", "Ireland",
   "Italy", "Latvia", "Lithuania", "Luxembourg", "Netherlands", "Norway",
   "Poland", "Portugal", "Slovak Republic", "Slovenia", "Spain", "Sweden",
   "Switzerland", "Türkiye", "United Kingdom"]

/-- src/scatter.ts regionOf: the Americas list. -/
def amCountries : List String :=
  ["Canada", "Chile", "Colombia", "Costa Rica", "Mexico", "United States"]

/-- src/scatter.ts regionOf: the Asia list. -/
def asCountries : List String := ["Israel", "Japan", "Korea"]

/-- src/scatter.ts regionOf: the Oceania list. -/
def ocCountries : List String := ["Australia", "New Zealand"]

/-- src/scatter.ts regionOf (also src/unnamed/part_008): membership
tests in order, with a final unconditional `return "Europe"`. -/
def regionOf (country : String) : String :=
  if euCountries.contains country then "Europe"
  else if amCountries.contains country then "Americas"
  else if asCountries.contains country then "Asia"
  else if ocCountries.contains country then "Oceania"
  else "Europe"

/-! ### Helper lemmas -/

theorem foldl_min_le_init (l : List ℚ) : ∀ a : ℚ, l.foldl min a ≤ a := by
  induction l with
  | nil => intro a; simp
  | cons x xs ih =>
      intro a
      exact le_trans (ih (min a x)) (min_le_left a x)

theorem le_foldl_max_init (l : List ℚ) : ∀ a : ℚ, a ≤ l.foldl max a := by
  induction l with
  | nil => intro a; simp
  | cons x xs ih =>
      intro a
      exact le_trans (le_max_left a x) (ih (max a x))

theorem foldl_min_le_mem {b : ℚ} {l : List ℚ} (h : b ∈ l) :
    ∀ a : ℚ, l.foldl min a ≤ b := by
  induction l with
  | nil => cases h
  | cons x xs ih =>
      intro a
      rcases List.mem_cons.mp h with rfl | hb
      · exact le_trans (foldl_min_le_init xs (min a b)) (min_le_right a b)
      · exact ih hb (min a x)

theorem le_foldl_max_mem {b : ℚ} {l : List ℚ} (h : b ∈ l) :
    ∀ a : ℚ, b ≤ l.foldl max a := by
  induction l with
  | nil => cases h
  | cons x xs ih =>
      intro a
      rcases List.mem_cons.mp h with rfl | hb
      · exact le_trans (le_max_right a b) (le_foldl_max_init xs (max a b))
      · exact ih hb (max a x)

/-- Every member of a list lies between the two ends of its `d3.extent`. -/
theorem d3Extent_bounds {v : ℚ} {l : List ℚ} (h : v ∈ l) :
    (d3Extent l).1 ≤ v ∧ v ≤ (d3Extent l).2 := by
  cases l with
  | nil => cases h
  | cons x xs =>
      refine ⟨?_, ?_⟩
      · rcases List.mem_cons.mp h with rfl | hv
        · exact foldl_min_le_init xs v
        · exact foldl_min_le_mem hv x
      · rcases List.mem_cons.mp h with rfl | hv
        · exact le_foldl_max_init xs v
        · exact le_foldl_max_mem hv x

/-- A clamped linear scale onto `[1, 10]` with an ordered domain stays
inside `[1, 10]`, for every input. -/
theorem clampScale_bounds (lo hi x : ℚ) (h : lo ≤ hi) :
    1 ≤ clampScale lo hi 1 10 x ∧ clampScale lo hi 1 10 x ≤ 10 := by
  unfold clampScale
  by_cases hd : lo = hi
  · simp only [hd, if_pos rfl]
    norm_num
  · simp only [if_neg hd]
    have hlt : lo < hi := lt_of_le_of_ne h hd
    have hpos : 0 < hi - lo := sub_pos.mpr hlt
    set xc := min (max x lo) hi with hxc
    have hxc1 : lo ≤ xc := le_min (le_max_right x lo) h
    have hxc2 : xc ≤ hi := min_le_right _ _
    have ht0 : 0 ≤ (xc - lo) / (hi - lo) :=
      div_nonneg (sub_nonneg.mpr hxc1) (le_of_lt hpos)
    have ht1 : (xc - lo) / (hi - lo) ≤ 1 :=
      (div_le_one hpos).mpr (by linarith)
    constructor
    · nlinarith
    · nlinarith

/-- Zipping a list with itself pairs each element with itself. -/
theorem zip_self_map (f : Cell → Cell → ℚ) (a : List Cell) :
    ((a.zip a).map (fun p => f p.1 p.2)) = a.map (fun x => f x x) := by
  induction a with
  | nil => rfl
  | cons x xs ih => simp [List.zip_cons_cons, ih]

/-- A sum of squared deviations is nonnegative. -/
theorem ssq_nonneg (l : List Cell) (m : ℚ) : 0 ≤ ssq l m := by
  unfold ssq
  apply List.sum_nonneg
  intro x hx
  obtain ⟨c, _, rfl⟩ := List.mem_map.mp hx
  positivity

/-- A stable sort of a two-element list keeps the order exactly when the
first element may precede the second. -/
theorem mergeSort_pair {α : Type} (le : α → α → Bool) (a b : α) :
    [a, b].mergeSort le = if le a b then [a, b] else [b, a] := by
  cases h : le a b <;>
    simp [List.mergeSort, List.splitInTwo, List.splitAt, List.splitAt.go,
      List.merge, h]

/-! ### Claim theorems -/

/-- C3: for every category and every country whose rawMean (group
average) for that category is non-null, the 1–10 clamped linear scale of
renderCountryGrid maps that rawMean into `[1, 10]` inclusive. -/
theorem normScore_in_range (rows : List Row) (cols : List String) (r : Row)
    (v : ℚ) (hr : r ∈ rows) (hv : groupAvg r cols = some v) :
    1 ≤ normScore rows cols v ∧ normScore rows cols v ≤ 10 := by
  have hmem : v ∈ catValues rows cols :=
    List.mem_filterMap.mpr ⟨r, hr, hv⟩
  have hb := d3Extent_bounds hmem
  have hle : (d3Extent (catValues rows cols)).1 ≤
      (d3Extent (catValues rows cols)).2 := le_trans hb.1 hb.2
  simpa [normScore] using
    clampScale_bounds (d3Extent (catValues rows cols)).1
      (d3Extent (catValues rows cols)).2 v hle

/-- Witness for C3 at a concrete two-country dataset. -/
theorem normScore_in_range_witness :
    1 ≤ normScore [[("Life satisfaction", some 3)],
        [("Life satisfaction", some 5)]] ["Life satisfaction"] 3 ∧
      normScore [[("Life satisfaction", some 3)],
        [("Life satisfaction", some 5)]] ["Life satisfaction"] 3 ≤ 10 :=
  normScore_in_range _ _ [("Life satisfaction", some 3)] 3
    (List.mem_cons_self _ _)
    (by norm_num [groupAvg, validVals, cellOf, d3Mean, List.lookup, List.filterMap_cons, List.filterMap_nil])

/-- C7: when a category's normalization extent is degenerate
(`min = max` over the non-null rawMeans), every country with a non-null
rawMean gets the midpoint of the target range: `5.5` from the clamped
1–10 scale of renderCountryGrid, and `5` from the radar scale of
renderRadarChart, whose domain is widened by ±1 before mapping; neither
divides by zero. -/
theorem degenerate_category_midpoint (rows : List Row) (cols : List String)
    (r : Row) (v : ℚ) (hr : r ∈ rows) (hv : groupAvg r cols = some v)
    (hdeg : (d3Extent (catValues rows cols)).1 =
      (d3Extent (catValues rows cols)).2) :
    normScore rows cols v = 11 / 2 ∧
    radarNormalize (d3Extent (catValues rows cols)).1
      (d3Extent (catValues rows cols)).2 v = 5 := by
  have hmem : v ∈ catValues rows cols :=
    List.mem_filterMap.mpr ⟨r, hr, hv⟩
  have hb := d3Extent_bounds hmem
  have hv2 : v ≤ (d3Extent (catValues rows cols)).1 := by
    rw [hdeg]; exact hb.2
  have hveq : v = (d3Extent (catValues rows cols)).1 :=
    le_antisymm hv2 hb.1
  constructor
  · rw [normScore, clampScale, if_pos hdeg]
    norm_num
  · rw [radarNormalize, if_pos hdeg, ← hdeg, ← hveq]
    have h2 : v + 1 - (v - 1) = 2 := by ring
    rw [h2]
    norm_num

/-- Witness for C7 at a dataset where both countries share rawMean 7. -/
theorem degenerate_category_midpoint_witness :
    normScore [[("Life satisfaction", some 7)],
        [("Life satisfaction", some 7)]] ["Life satisfaction"] 7 = 11 / 2 ∧
      radarNormalize
        (d3Extent (catValues [[("Life satisfaction", some 7)],
          [("Life satisfaction", some 7)]] ["Life satisfaction"])).1
        (d3Extent (catValues [[("Life satisfaction", some 7)],
          [("Life satisfaction", some 7)]] ["Life satisfaction"])).2 7 = 5 :=
  degenerate_category_midpoint _ _ [("Life satisfaction", some 7)] 7
    (List.mem_cons_self _ _)
    (by norm_num [groupAvg, validVals, cellOf, d3Mean, List.lookup, List.filterMap_cons, List.filterMap_nil])
    (by norm_num [catValues, groupAvg, validVals, cellOf, d3Mean, d3Extent,
      List.lookup, List.filterMap_cons, List.filterMap_nil])

/-- C10: regionOf is total with default "Europe": every name outside the
four hard-coded lists — aggregates like "OECD Average" and unlisted
countries like "South Africa" included — is classified as "Europe". -/
theorem regionOf_default_europe (s : String)
    (h1 : s ∉ euCountries) (h2 : s ∉ amCountries)
    (h3 : s ∉ asCountries) (h4 : s ∉ ocCountries) :
    regionOf s = "Europe" := by
  simp [regionOf, h1, h2, h3, h4]

/-- Witness for C10: "OECD Average" and "South Africa" are in none of the
lists, so both are classified as "Europe". -/
theorem regionOf_default_europe_witness :
    regionOf "OECD Average" = "Europe" ∧
      regionOf "South Africa" = "Europe" :=
  ⟨regionOf_default_europe "OECD Average"
      (by decide) (by decide) (by decide) (by decide),
    regionOf_default_europe "South Africa"
      (by decide) (by decide) (by decide) (by decide)⟩

/-- C1 counterexample: in indexWidget.js drawMap a country whose only
member cell is `null` gets group average `0` (coerced, not `null`), and
it contributes that `0` to the OECD average: with one country at 4 and
one all-null country the cross-country average is 2, where excluding the
all-null country gives 4. -/
theorem drawMap_zero_coercion_cex :
    drawMapGroupAvg [("Life satisfaction", none)] ["Life satisfaction"] = 0 ∧
    drawMapOecdAvg
      [[("Life satisfaction", some 4)], [("Life satisfaction", none)]]
      ["Life satisfaction"] = 2 ∧
    drawMapOecdAvg [[("Life satisfaction", some 4)]]
      ["Life satisfaction"] = 4 := by
  norm_num [drawMapGroupAvg, drawMapVals, drawMapOecdAvg, cellOf, d3Mean,
    List.lookup, List.filterMap_cons, List.filterMap_nil]

/-- C1 (amended): in renderCountryGrid a country has a `null` rawMean
for a category exactly when no valid member value remains, and such a
country contributes nothing to the list over which the category's
`[min, max]` extent is computed.  (The drawMap variant instead coerces
the average to 0 and includes it in the OECD average.) -/
theorem groupAvg_null_excluded (row : Row) (rows : List Row)
    (cols : List String) :
    (groupAvg row cols = none ↔ validVals row cols = []) ∧
    (groupAvg row cols = none →
      catValues (row :: rows) cols = catValues rows cols) := by
  constructor
  · rw [show groupAvg row cols =
        if (validVals row cols).length = 0 then none
        else some (d3Mean (validVals row cols)) from rfl]
    by_cases hl : (validVals row cols).length = 0
    · simp [hl, List.length_eq_zero.mp hl]
    · simp only [hl, if_false, reduceCtorEq, false_iff]
      intro hh
      exact hl (by simp [hh])
  · intro h
    simp [catValues, List.filterMap_cons, h]

/-- Witness for C1 at a concrete all-null country: it drops out of the
extent list. -/
theorem groupAvg_null_excluded_witness :
    catValues [[("Life satisfaction", none)], [("Life satisfaction", some 4)]]
        ["Life satisfaction"] =
      catValues [[("Life satisfaction", some 4)]] ["Life satisfaction"] :=
  (groupAvg_null_excluded [("Life satisfaction", none)]
      [[("Life satisfaction", some 4)]] ["Life satisfaction"]).2
    (by norm_num [groupAvg, validVals, cellOf, List.lookup,
      List.filterMap_cons, List.filterMap_nil])

/-- C6: when every category weight is zero, updateRanking falls back to
the single default category "Life Satisfaction" with implicit weight 1:
its output equals the output of ranking with that weight alone, and its
length equals the number of countries (a non-empty input yields a
non-empty ranking). -/
theorem allzero_weights_fallback (weight : List (String × ℚ))
    (countries : List CountryScores) (hz : ∀ p ∈ weight, p.2 = 0) :
    updateRanking weight countries =
      updateRanking [("Life Satisfaction", 1)] countries ∧
    (updateRanking weight countries).length = countries.length := by
  have hsum : (weight.map Prod.snd).sum = 0 :=
    List.sum_eq_zero (fun x hx => by
      obtain ⟨p, hp, rfl⟩ := List.mem_map.mp hx
      exact hz p hp)
  have huw : useWeights weight = [("Life Satisfaction", 1)] := by
    simp [useWeights, hsum]
  have huw1 : useWeights [("Life Satisfaction", 1)] =
      [("Life Satisfaction", 1)] := by
    norm_num [useWeights]
  constructor
  · unfold updateRanking annotate rankingComposite
    rw [huw, huw1]
  · simp [updateRanking, annotate]

/-- Witness for C6 at a concrete all-zero weight assignment. -/
theorem allzero_weights_fallback_witness :
    updateRanking [("Housing", (0 : ℚ)), ("Health", 0)]
        [⟨"A", [("Life Satisfaction", 3)], 0⟩] =
      updateRanking [("Life Satisfaction", 1)]
        [⟨"A", [("Life Satisfaction", 3)], 0⟩] :=
  (allzero_weights_fallback _ _ (by decide)).1

/-- C8: updateRanking outputs the full country list (a permutation of
the annotated input), ordered descending by composite score, and two
countries with equal composite retain their relative input order (the
embedded ES2019 sort is stable). -/
theorem updateRanking_sorted_stable (weight : List (String × ℚ))
    (countries : List CountryScores) :
    List.Pairwise (fun a b => b.composite ≤ a.composite)
        (updateRanking weight countries) ∧
    (updateRanking weight countries).Perm (annotate weight countries) ∧
    ∀ a b : CountryScores, a.composite = b.composite →
      [a, b].Sublist (annotate weight countries) →
      [a, b].Sublist (updateRanking weight countries) := by
  have htrans : ∀ a b c : CountryScores,
      rankLE a b → rankLE b c → rankLE a c := by
    intro a b c hab hbc
    simp only [rankLE, decide_eq_true_eq] at *
    exact le_trans hbc hab
  have htotal : ∀ a b : CountryScores, rankLE a b || rankLE b a := by
    intro a b
    simp only [rankLE, Bool.or_eq_true, decide_eq_true_eq]
    exact le_total b.composite a.composite
  refine ⟨?_, ?_, ?_⟩
  · have hs := @List.sorted_mergeSort CountryScores rankLE htrans htotal
      (annotate weight countries)
    exact hs.imp (fun h => by
      simpa only [rankLE, decide_eq_true_eq] using h)
  · exact List.mergeSort_perm _ _
  · intro a b hab hsub
    exact List.pair_sublist_mergeSort htrans htotal
      (by simp [rankLE, hab]) hsub

/-- Witness for C8: two countries tied at composite 5 stay in input
order inside the ranking output. -/
theorem updateRanking_sorted_stable_witness :
    [(⟨"A", [("Life Satisfaction", 5)], 5⟩ : CountryScores),
        ⟨"B", [("Life Satisfaction", 5)], 5⟩].Sublist
      (updateRanking [("Life Satisfaction", 1)]
        [⟨"A", [("Life Satisfaction", 5)], 0⟩,
         ⟨"B", [("Life Satisfaction", 5)], 0⟩]) := by
  have h : annotate [("Life Satisfaction", (1 : ℚ))]
      [⟨"A", [("Life Satisfaction", 5)], 0⟩,
       ⟨"B", [("Life Satisfaction", 5)], 0⟩] =
      [⟨"A", [("Life Satisfaction", 5)], 5⟩,
       ⟨"B", [("Life Satisfaction", 5)], 5⟩] := by
    norm_num [annotate, rankingComposite, useWeights, scoreOf, List.lookup]
  refine (updateRanking_sorted_stable _ _).2.2 _ _ rfl ?_
  rw [h]

/-- C9 counterexample: an updateRanking call does not leave the input
sequence unchanged — it overwrites the composite fields and reorders the
records (here the two countries come back swapped, with new composite
values). -/
theorem updateRanking_mutates_cex :
    updateRanking [("Life Satisfaction", (1 : ℚ))]
        [⟨"A", [("Life Satisfaction", 1)], 0⟩,
         ⟨"B", [("Life Satisfaction", 2)], 0⟩] ≠
      [⟨"A", [("Life Satisfaction", 1)], 0⟩,
       ⟨"B", [("Life Satisfaction", 2)], 0⟩] := by
  have hann : annotate [("Life Satisfaction", (1 : ℚ))]
      [⟨"A", [("Life Satisfaction", 1)], 0⟩,
       ⟨"B", [("Life Satisfaction", 2)], 0⟩] =
      [⟨"A", [("Life Satisfaction", 1)], 1⟩,
       ⟨"B", [("Life Satisfaction", 2)], 2⟩] := by
    norm_num [annotate, rankingComposite, useWeights, scoreOf, List.lookup]
  have hout : updateRanking [("Life Satisfaction", (1 : ℚ))]
      [⟨"A", [("Life Satisfaction", 1)], 0⟩,
       ⟨"B", [("Life Satisfaction", 2)], 0⟩] =
      [⟨"B", [("Life Satisfaction", 2)], 2⟩,
       ⟨"A", [("Life Satisfaction", 1)], 1⟩] := by
    rw [updateRanking, hann, mergeSort_pair]
    norm_num [rankLE]
  rw [hout]
  simp

/-- C9 (amended): updateRanking does mutate — it overwrites every
record's composite and sorts the array in place (see the
counterexample) — but the post-state is a pure function of the records'
names and scores together with the weights: whatever composite values
the records carried before the call, the result is the same. -/
theorem updateRanking_ignores_prior_composite
    (weight : List (String × ℚ)) (countries : List CountryScores)
    (f : CountryScores → ℚ) :
    updateRanking weight
        (countries.map (fun c => { c with composite := f c })) =
      updateRanking weight countries := by
  unfold updateRanking annotate
  rw [List.map_map]
  rfl

/-- C2 counterexample: for a dataset with a single country whose only
indicator is Life satisfaction = 100 and weight 1 on "Life
Satisfaction", the ranking computation produces composite 100 — the raw
group mean, not a normalized score — while the spec's weighted mean of
normalized per-category scores is 11/2 (the 1–10 scale midpoint). -/
theorem rankingComposite_not_spec_cex :
    rankingComposite [("Life Satisfaction", 1)]
        (mkCountry "X" [("Life satisfaction", some 100)]) = 100 ∧
    specCompositeScore [[("Life satisfaction", some 100)]]
        [("Life Satisfaction", 1)] [("Life satisfaction", some 100)] =
      some (11 / 2) ∧
    (100 : ℚ) ≠ 11 / 2 := by
  have w1 : widgetVals [("Life satisfaction", some 100)]
      ["Dwellings without basic facilities", "Housing expenditure",
       "Rooms per person"] = [] := by decide
  have w2 : widgetVals [("Life satisfaction", some 100)]
      ["GDP per capita (USD)", "Household net adjusted disposable income",
       "Household net wealth", "Personal earnings"] = [] := by decide
  have w3 : widgetVals [("Life satisfaction", some 100)]
      ["Labour market insecurity", "Employment rate",
       "Long-term unemployment rate"] = [] := by decide
  have w4 : widgetVals [("Life satisfaction", some 100)]
      ["Quality of support network"] = [] := by decide
  have w5 : widgetVals [("Life satisfaction", some 100)]
      ["Educational attainment", "Student skills", "Years in education"] =
      [] := by decide
  have w6 : widgetVals [("Life satisfaction", some 100)]
      ["Air pollution", "Water quality"] = [] := by decide
  have w7 : widgetVals [("Life satisfaction", some 100)]
      ["Stakeholder engagement for developing regulations", "Voter turnout"] =
      [] := by decide
  have w8 : widgetVals [("Life satisfaction", some 100)]
      ["Life expectancy", "Self-reported health"] = [] := by decide
  have w9 : widgetVals [("Life satisfaction", some 100)]
      ["Life satisfaction"] = [100] := by decide
  have w10 : widgetVals [("Life satisfaction", some 100)]
      ["Feeling safe walking alone at night", "Homicide rate"] = [] := by
    decide
  have w11 : widgetVals [("Life satisfaction", some 100)]
      ["Employees working very long hours",
       "Time devoted to leisure and personal care"] = [] := by decide
  have hms : mkScores [("Life satisfaction", some 100)] =
      [("Housing", 0), ("Income", 0), ("Jobs", 0), ("Community", 0),
       ("Education", 0), ("Environment", 0), ("Civic Engagement", 0),
       ("Health", 0), ("Life Satisfaction", 100), ("Safety", 0),
       ("Work-Life Balance", 0)] := by
    simp only [mkScores, GROUPS, List.map_cons, List.map_nil,
      w1, w2, w3, w4, w5, w6, w7, w8, w9, w10, w11]
    norm_num [d3Mean]
  have hsc : scoreOf (mkCountry "X" [("Life satisfaction", some 100)])
      "Life Satisfaction" = 100 := by
    simp only [scoreOf, mkCountry, hms]
    decide
  have huw : useWeights [("Life Satisfaction", (1 : ℚ))] =
      [("Life Satisfaction", 1)] := by
    norm_num [useWeights]
  have hrc : rankingComposite [("Life Satisfaction", 1)]
      (mkCountry "X" [("Life satisfaction", some 100)]) = 100 := by
    simp only [rankingComposite, huw, List.map_cons, List.map_nil,
      List.sum_cons, List.sum_nil, hsc]
    norm_num
  have g1 : groupAvg [("Life satisfaction", some 100)]
      ["Dwellings without basic facilities", "Housing expenditure",
       "Rooms per person"] = none := by decide
  have g2 : groupAvg [("Life satisfaction", some 100)]
      ["GDP per capita (USD)", "Household net adjusted disposable income",
       "Household net wealth", "Personal earnings"] = none := by decide
  have g3 : groupAvg [("Life satisfaction", some 100)]
      ["Labour market insecurity", "Employment rate",
       "Long-term unemployment rate"] = none := by decide
  have g4 : groupAvg [("Life satisfaction", some 100)]
      ["Quality of support network"] = none := by decide
  have g5 : groupAvg [("Life satisfaction", some 100)]
      ["Educational attainment", "Student skills", "Years in education"] =
      none := by decide
  have g6 : groupAvg [("Life satisfaction", some 100)]
      ["Air pollution", "Water quality"] = none := by decide
  have g7 : groupAvg [("Life satisfaction", some 100)]
      ["Stakeholder engagement for developing regulations", "Voter turnout"] =
      none := by decide
  have g8 : groupAvg [("Life satisfaction", some 100)]
      ["Life expectancy", "Self-reported health"] = none := by decide
  have g10 : groupAvg [("Life satisfaction", some 100)]
      ["Feeling safe walking alone at night", "Homicide rate"] = none := by
    decide
  have g11 : groupAvg [("Life satisfaction", some 100)]
      ["Employees working very long hours",
       "Time devoted to leisure and personal care"] = none := by decide
  have gLS : groupAvg [("Life satisfaction", some 100)]
      ["Life satisfaction"] = some 100 := by
    norm_num [groupAvg, validVals, cellOf, List.lookup, d3Mean,
      List.filterMap_cons, List.filterMap_nil]
  have hcv : catValues [[("Life satisfaction", some 100)]]
      ["Life satisfaction"] = [100] := by
    simp only [catValues, List.filterMap_cons, List.filterMap_nil, gLS]
  have hns : normScore [[("Life satisfaction", some 100)]]
      ["Life satisfaction"] 100 = 11 / 2 := by
    simp only [normScore, hcv]
    norm_num [d3Extent, clampScale]
  have hspec : specCompositeScore [[("Life satisfaction", some 100)]]
      [("Life Satisfaction", 1)] [("Life satisfaction", some 100)] =
      some (11 / 2) := by
    simp only [specCompositeScore, GROUPS, List.filterMap_cons,
      List.filterMap_nil, specNormScore, g1, g2, g3, g4, g5, g6, g7, g8,
      g10, g11, gLS, hns, Option.map_some', Option.map_none']
    norm_num [List.lookup]
  exact ⟨hrc, hspec, by norm_num⟩

/-- C2 (amended): a category with weight 0 contributes nothing to the
composite produced by updateRanking: prepending a zero-weight entry to
the active weights leaves every country's composite unchanged.  (The
composite itself is the weighted mean of the RAW group means — missing
scores coerced to 0 — divided by the sum of all active weights; see the
counterexample for the failure of the normalized-score reading.) -/
theorem rankingComposite_zero_weight (g : String)
    (weight : List (String × ℚ)) (c : CountryScores) :
    rankingComposite ((g, 0) :: weight) c = rankingComposite weight c := by
  have h2 : (((g, (0 : ℚ)) :: weight).map Prod.snd).sum =
      (weight.map Prod.snd).sum := by simp
  unfold rankingComposite useWeights
  rw [h2]
  by_cases h : 0 < (weight.map Prod.snd).sum
  · simp only [if_pos h, List.map_cons, List.sum_cons, mul_zero, zero_add]
  · simp only [if_neg h]

/-- C4 counterexample: correlating a constant column against an ordinary
column yields NaN (the JS `0/0`), which is not null (the return type has
no null) and not the number 0. -/
theorem correlation_constant_nan_cex :
    computeCorrelation [some 5, some 5, some 5] [some 1, some 2, some 3] =
      JsNumber.nan ∧
    JsNumber.nan ≠ JsNumber.finite 0 := by
  constructor
  · have ha : dmean [some 5, some 5, some 5] = some 5 := by
      norm_num [dmean, d3Mean, List.filterMap_cons, List.filterMap_nil]
    have hb : dmean [some 1, some 2, some 3] = some 2 := by
      norm_num [dmean, d3Mean, List.filterMap_cons, List.filterMap_nil]
    have hz : ssq [some 5, some 5, some 5] (5 : ℚ) = 0 := by
      norm_num [ssq]
    simp [computeCorrelation, ha, hb, hz]
  · intro h
    exact JsNumber.noConfusion h

/-- C4 (amended): computeCorrelation yields NaN — never null (its
return type has no null) and never 0 — exactly when some column has no
valid entry at all, or both column means are defined but either
column's sum of squared deviations (after the null→0 coercion) is
zero: a constant column, with a single-entry column as a special case.
Fewer than two pairwise-complete observations alone does not force
NaN: a column such as `[5, null]` has a defined mean and a nonzero
squared-deviation sum, so the code can return a finite value from a
single complete pair. -/
theorem computeCorrelation_degenerate_nan (a b : List Cell) :
    computeCorrelation a b = JsNumber.nan ↔
      dmean a = none ∨ dmean b = none ∨
        ∃ ma mb, dmean a = some ma ∧ dmean b = some mb ∧
          (ssq a ma = 0 ∨ ssq b mb = 0) := by
  cases ha : dmean a with
  | none => simp [computeCorrelation, ha]
  | some ma =>
    cases hb : dmean b with
    | none => simp [computeCorrelation, ha, hb]
    | some mb =>
      constructor
      · intro h
        by_cases hz : ssq a ma = 0 ∨ ssq b mb = 0
        · exact Or.inr (Or.inr ⟨ma, mb, rfl, rfl, hz⟩)
        · exfalso
          simp only [computeCorrelation, ha, hb, if_neg hz] at h
          exact JsNumber.noConfusion h
      · intro h
        rcases h with h | h | ⟨ma2, mb2, hma, hmb, hzz⟩
        · exact Option.noConfusion h
        · exact Option.noConfusion h
        · cases Option.some.inj hma
          cases Option.some.inj hmb
          simp [computeCorrelation, ha, hb, hzz]

/-- Witness for C4 at concrete degenerate inputs (constant two-element
column). -/
theorem computeCorrelation_degenerate_nan_witness :
    computeCorrelation [some 5, some 5] [some 1, some 2] = JsNumber.nan :=
  (computeCorrelation_degenerate_nan [some 5, some 5] [some 1, some 2]).mpr
    (Or.inr (Or.inr ⟨5, 3 / 2,
      by norm_num [dmean, d3Mean, List.filterMap_cons, List.filterMap_nil],
      by norm_num [dmean, d3Mean, List.filterMap_cons, List.filterMap_nil],
      Or.inl (by norm_num [ssq])⟩))

/-- C5 (amended): computeCorrelation of a column with itself is exactly 1
whenever the column has a defined mean and a nonzero sum of squared
deviations — even with null cells present, since the same null→0
coercion is applied to both copies.  (Pairwise-complete deletion is not
performed; see the counterexample.) -/
theorem computeCorrelation_self_one (a : List Cell) (ma : ℚ)
    (ha : dmean a = some ma) (hz : ssq a ma ≠ 0) :
    computeCorrelation a a = JsNumber.finite 1 := by
  have hsp : sprod a a ma ma = ssq a ma := by
    unfold sprod ssq
    rw [zip_self_map (fun x y => (x.getD 0 - ma) * (y.getD 0 - ma))]
    congr 1
    exact List.map_congr_left (fun x _ => by ring)
  have hnn : 0 ≤ ssq a ma := ssq_nonneg a ma
  simp only [computeCorrelation, ha]
  rw [if_neg (by push_neg; exact ⟨hz, hz⟩), hsp]
  have hs : Real.sqrt ((ssq a ma : ℝ) * (ssq a ma : ℝ)) = (ssq a ma : ℝ) :=
    Real.sqrt_mul_self (by exact_mod_cast hnn)
  rw [hs]
  congr 1
  exact div_self (by exact_mod_cast hz)

/-- Witness for C5 at a concrete two-element column. -/
theorem computeCorrelation_self_one_witness :
    computeCorrelation [some 1, some 2] [some 1, some 2] =
      JsNumber.finite 1 :=
  computeCorrelation_self_one _ (3 / 2)
    (by norm_num [dmean, d3Mean, List.filterMap_cons, List.filterMap_nil])
    (by norm_num [ssq])

/-- C5 counterexample: with a null in column A, the code's correlation
differs from the pairwise-complete Pearson coefficient: the
pairwise-complete value over the two complete rows is exactly 1, while
computeCorrelation — which keeps the incomplete row, coercing the null
to 0 in the deviation products — returns a negative value, hence not 1. -/
theorem correlation_not_pairwise_cex :
    pearsonPairwise [some 1, some 2, none] [some 1, some 2, some 100] =
      some 1 ∧
    computeCorrelation [some 1, some 2, none] [some 1, some 2, some 100] ≠
      JsNumber.finite 1 := by
  constructor
  · have hp2 : List.filterMap (fun p : Cell × Cell =>
          match p.1, p.2 with
          | some x, some y => some (x, y)
          | _, _ => none)
        [(some (1 : ℚ), some (1 : ℚ)), (some 2, some 2), (none, some 100)] =
        [((1 : ℚ), (1 : ℚ)), (2, 2)] := by decide
    norm_num [pearsonPairwise, hp2, d3Mean]
    rw [show (4 : ℝ) = 2 ^ 2 by norm_num,
      Real.sqrt_sq (by norm_num : (0 : ℝ) ≤ 2)]
    norm_num
  · have ha : dmean [some 1, some 2, none] = some (3 / 2) := by
      norm_num [dmean, d3Mean, List.filterMap_cons, List.filterMap_nil]
    have hb : dmean [some 1, some 2, some 100] = some (103 / 3) := by
      norm_num [dmean, d3Mean, List.filterMap_cons, List.filterMap_nil]
    have hsaa : ssq [some 1, some 2, none] (3 / 2) = 11 / 4 := by
      norm_num [ssq]
    have hsbb : ssq [some 1, some 2, some 100] (103 / 3) = 19406 / 3 := by
      norm_num [ssq]
    have hsab : sprod [some 1, some 2, none] [some 1, some 2, some 100]
        (3 / 2) (103 / 3) = -98 := by
      norm_num [sprod]
    intro h
    simp only [computeCorrelation, ha, hb, hsaa, hsbb, hsab] at h
    rw [if_neg (by norm_num)] at h
    have hval : ((-98 : ℚ) : ℝ) /
        Real.sqrt (((11 / 4 : ℚ) : ℝ) * ((19406 / 3 : ℚ) : ℝ)) = 1 := by
      injection h
    have hpos : (0 : ℝ) <
        Real.sqrt (((11 / 4 : ℚ) : ℝ) * ((19406 / 3 : ℚ) : ℝ)) :=
      Real.sqrt_pos.mpr (by norm_num)
    have hneg : ((-98 : ℚ) : ℝ) /
        Real.sqrt (((11 / 4 : ℚ) : ℝ) * ((19406 / 3 : ℚ) : ℝ)) < 0 :=
      div_neg_of_neg_of_pos (by norm_num) hpos
    linarith
